import Mathlib

/-!
# httpctx: context-aware HTTP handler adapters

A shallow embedding of `src/handler.go` (package `httpctx`).

Modelling conventions.

* An `http.ResponseWriter` is a reference to a mutable sink.  A handler is therefore a
  function that receives the state of the sink at the time of the call and yields the
  state of the sink when it stops, together with the value of the panic that stopped
  it, if any (`Result`).  Writes made before a panic stay in the sink.
* A Go function value and a Go interface value can be nil: both are `Option`s.  Calling
  a nil function, or a method of a nil interface, panics with the runtime error
  "invalid memory address or nil pointer dereference" and leaves the sink as it was.
* Every execution also reports the calls that the executed body itself makes, in
  order (`Exec.calls`): this is what "calls the handler exactly once, with these
  arguments" is stated on.  The calls made further down by a callee are the callee's.
* The packages `net/http` and `golang.org/x/net/context` are external.  The two
  serve-start operations of `net/http` are a parameter (`http.Server`);
  `context.Background` is modelled from the specification's glossary.
-/

namespace httpctx

/-! ## Values shared with `net/http` and `context` -/

/-- Value carried by a panic. -/
inductive PanicValue
  | nilDereference
  | value (v : String)
  deriving DecidableEq, Repr

/-- Go's builtin `error` interface: nil, or an error with its message. -/
abbrev error := Option String

/-- The parsed request (`*http.Request`), as far as a handler can look at it. -/
structure Request where
  method : String
  url : String
  body : String
  deriving DecidableEq, Repr

/-- One observable write to a response sink. -/
inductive Write
  | header (key val : String)
  | status (code : Nat)
  | body (bytes : String)
  deriving DecidableEq, Repr

/-- State of the sink behind an `http.ResponseWriter`: the writes made so far, oldest
first. -/
structure ResponseWriter where
  written : List Write
  deriving DecidableEq, Repr

/-- What a handler call leaves behind: the sink, and the panic that ended the call. -/
structure Result where
  w : ResponseWriter
  panic : Option PanicValue
  deriving DecidableEq, Repr

namespace context

/-- Keys of request-scoped values (Go allows any comparable value; strings here). -/
abbrev Key := String

/-- The four methods of a non-nil `context.Context`, at the time of the call:
`Deadline()` (`none` when `ok` is false), whether the channel of `Done()` is closed,
`Err()` and `Value(key)`. -/
structure Impl where
  Deadline : Option Nat
  Done : Bool
  Err : error
  Value : Key → Option String

/-- The interface `context.Context`; `none` is the nil interface. -/
abbrev Context := Option Impl

/-- Modelled from the spec: `context.Background()` of `golang.org/x/net/context` is
not part of the repository.  The glossary defines the background context as "an
execution context with no deadline, no cancellation signal, and no attached values";
it is a non-nil value. -/
def Background : Context :=
  some { Deadline := none, Done := false, Err := none, Value := fun _ => none }

end context

/-! ## Handlers, calls and executions -/

mutual
/-- A call made by a function body: the callee (possibly nil) and the arguments. -/
inductive Call : Type
  | ServeHTTP (h : Option HandlerImpl) (ctx : context.Context) (w : ResponseWriter)
      (r : Request)
  | func (f : Option (context.Context → ResponseWriter → Request → Exec))
      (ctx : context.Context) (w : ResponseWriter) (r : Request)
  | httpServeHTTP (h : Option HttpHandlerImpl) (w : ResponseWriter) (r : Request)
  | httpFunc (f : Option (ResponseWriter → Request → Exec)) (w : ResponseWriter)
      (r : Request)
/-- An execution of a function body: what it leaves behind and the calls it made. -/
inductive Exec : Type
  | mk (result : Result) (calls : List Call)
/-- A non-nil value of the interface `httpctx.Handler`: its method `ServeHTTP`. -/
inductive HandlerImpl : Type
  | mk (ServeHTTP : context.Context → ResponseWriter → Request → Exec)
/-- A non-nil value of the interface `http.Handler`: its method `ServeHTTP`. -/
inductive HttpHandlerImpl : Type
  | mk (ServeHTTP : ResponseWriter → Request → Exec)
end

/-- What the execution leaves behind. -/
def Exec.result : Exec → Result
  | Exec.mk res _ => res

/-- The calls the executed body made, in order. -/
def Exec.calls : Exec → List Call
  | Exec.mk _ cs => cs

/-- The method of a non-nil `httpctx.Handler`. -/
def HandlerImpl.ServeHTTP : HandlerImpl → context.Context → ResponseWriter → Request → Exec
  | HandlerImpl.mk m => m

/-- The method of a non-nil `http.Handler`. -/
def HttpHandlerImpl.ServeHTTP : HttpHandlerImpl → ResponseWriter → Request → Exec
  | HttpHandlerImpl.mk m => m

/-- The interface of the source, lines 23-25:
`type Handler interface { ServeHTTP(context.Context, http.ResponseWriter, *http.Request) }`;
`none` is the nil interface. -/
abbrev Handler := Option HandlerImpl

/-- The function type of the source, line 31:
`type HandlerFunc func(context.Context, http.ResponseWriter, *http.Request)`;
`none` is the nil function. -/
abbrev HandlerFunc := Option (context.Context → ResponseWriter → Request → Exec)

namespace http

/-- The interface `http.Handler` of `net/http`; `none` is the nil interface. -/
abbrev Handler := Option HttpHandlerImpl

/-- The type `http.HandlerFunc` of `net/http`, `func(http.ResponseWriter, *http.Request)`;
`none` is the nil function. -/
abbrev HandlerFunc := Option (ResponseWriter → Request → Exec)

end http

/-- A nil dereference: the call panics before anything runs, the sink is untouched. -/
def nilPanic (w : ResponseWriter) : Exec :=
  Exec.mk { w := w, panic := some PanicValue.nilDereference } []

/-- The method call `h.ServeHTTP(ctx, w, r)` on an `httpctx.Handler`. -/
def Handler.ServeHTTP (h : Handler) (ctx : context.Context) (w : ResponseWriter)
    (r : Request) : Exec :=
  match h with
  | none => nilPanic w
  | some hv => hv.ServeHTTP ctx w r

/-- The function call `f(ctx, w, r)` on a function of the context-aware signature. -/
def HandlerFunc.call (f : HandlerFunc) (ctx : context.Context) (w : ResponseWriter)
    (r : Request) : Exec :=
  match f with
  | none => nilPanic w
  | some g => g ctx w r

/-- The method call `h.ServeHTTP(w, r)` on an `http.Handler`. -/
def http.Handler.ServeHTTP (h : http.Handler) (w : ResponseWriter) (r : Request) : Exec :=
  match h with
  | none => nilPanic w
  | some hv => hv.ServeHTTP w r

/-- The function call `f(w, r)` on a function of the context-free signature. -/
def http.HandlerFunc.call (f : http.HandlerFunc) (w : ResponseWriter) (r : Request) : Exec :=
  match f with
  | none => nilPanic w
  | some g => g w r

/-- Running a call: dispatch on the callee. -/
def Call.run : Call → Exec
  | Call.ServeHTTP h ctx w r => Handler.ServeHTTP h ctx w r
  | Call.func f ctx w r => HandlerFunc.call f ctx w r
  | Call.httpServeHTTP h w r => http.Handler.ServeHTTP h w r
  | Call.httpFunc f w r => http.HandlerFunc.call f w r

/-- A body that consists of one call statement: it leaves behind what the callee
leaves behind, and the call is the one call the body made. -/
def perform (c : Call) : Exec :=
  Exec.mk (Call.run c).result [c]

/-! ## The package `httpctx` (`src/handler.go`) -/

/-- Source, lines 33-35:
`func (f HandlerFunc) ServeHTTP(ctx, w, r) { f(ctx, w, r) }`. -/
def HandlerFunc.ServeHTTP (f : HandlerFunc) (ctx : context.Context) (w : ResponseWriter)
    (r : Request) : Exec :=
  perform (Call.func f ctx w r)

/-- The conversion of a `HandlerFunc` to the interface `Handler`.  The interface value
holds the function and is never nil, also when the function is. -/
def HandlerFunc.toHandler (f : HandlerFunc) : Handler :=
  some (HandlerImpl.mk (HandlerFunc.ServeHTTP f))

/-- The conversion `http.HandlerFunc(f)` to the interface `http.Handler`.  In `net/http`
the method is `func (f HandlerFunc) ServeHTTP(w, r) { f(w, r) }`; the interface value
is modelled as having `f` itself for its method, so that the calls of an execution of
the method are those of the body of `f`. -/
def http.HandlerFunc.toHandler (f : http.HandlerFunc) : http.Handler :=
  some (HttpHandlerImpl.mk (http.HandlerFunc.call f))

/-- Source, lines 38-40:
`return HandlerFunc(func(_ context.Context, w, r) { h.ServeHTTP(w, r) })`. -/
def OldHandler (h : http.Handler) : Handler :=
  HandlerFunc.toHandler (some (fun _ w r => perform (Call.httpServeHTTP h w r)))

/-- Source, lines 43-45:
`return HandlerFunc(func(_ context.Context, w, r) { f(w, r) })`. -/
def OldHandleFunc (f : http.HandlerFunc) : HandlerFunc :=
  some (fun _ w r => perform (Call.httpFunc f w r))

/-- Source, lines 47-55: nil for a nil handler, otherwise the `http.HandlerFunc` whose
body is `ctx := context.Background(); h.ServeHTTP(ctx, w, r)`. -/
def rootHandler (h : Handler) : http.Handler :=
  if h.isNone then
    none
  else
    http.HandlerFunc.toHandler (some (fun w r =>
      let ctx := context.Background
      perform (Call.ServeHTTP h ctx w r)))

/-! ## Serving -/

/-- How a serve-start operation ends: it blocks for the lifetime of the server, or it
returns an error value. -/
inductive ServeResult
  | blocks
  | returned (err : error)
  deriving DecidableEq, Repr

namespace http

/-- The two serve-start operations of `net/http`, `http.ListenAndServe(addr, handler)`
and `http.ListenAndServeTLS(addr, certFile, keyFile, handler)`: external, a parameter
of the model. -/
structure Server where
  ListenAndServe : String → Handler → ServeResult
  ListenAndServeTLS : String → String → String → Handler → ServeResult

/-- A call of a serve-start operation of `net/http`, with its arguments. -/
inductive ServerCall
  | ListenAndServe (addr : String) (handler : Handler)
  | ListenAndServeTLS (addr certFile keyFile : String) (handler : Handler)

/-- Running a serve-start call on the server. -/
def ServerCall.run (srv : Server) : ServerCall → ServeResult
  | ServerCall.ListenAndServe addr handler => srv.ListenAndServe addr handler
  | ServerCall.ListenAndServeTLS addr certFile keyFile handler =>
      srv.ListenAndServeTLS addr certFile keyFile handler

end http

/-- An execution of a serve-start function of this package: what it returns and the
calls to `net/http` it made, in order. -/
structure ServeExec where
  result : ServeResult
  calls : List http.ServerCall

/-- A body `return c`: it returns what the call returns; the call is the one call made. -/
def http.Server.returnCall (srv : http.Server) (c : http.ServerCall) : ServeExec :=
  { result := http.ServerCall.run srv c, calls := [c] }

/-- Source, lines 59-61: `return http.ListenAndServe(addr, rootHandler(handler))`. -/
def ListenAndServe (srv : http.Server) (addr : String) (handler : Handler) : ServeExec :=
  srv.returnCall (http.ServerCall.ListenAndServe addr (rootHandler handler))

/-- Source, lines 68-70:
`return http.ListenAndServeTLS(addr, certFile, keyFile, rootHandler(handler))`. -/
def ListenAndServeTLS (srv : http.Server) (addr : String) (certFile : String)
    (keyFile : String) (handler : Handler) : ServeExec :=
  srv.returnCall
    (http.ServerCall.ListenAndServeTLS addr certFile keyFile (rootHandler handler))

/-! ## Sample values -/

/-- An empty sink. -/
def emptySink : ResponseWriter := { written := [] }

/-- The request `GET /`. -/
def getRoot : Request := { method := "GET", url := "/", body := "" }

/-- A cancelled context. -/
def context.cancelled : context.Context :=
  some { Deadline := none, Done := true, Err := some "context canceled",
         Value := fun _ => none }

/-- Appending one write to a sink. -/
def ResponseWriter.add (w : ResponseWriter) (x : Write) : ResponseWriter :=
  { written := w.written ++ [x] }

/-- A context-aware handler that answers 200 with the body "ok". -/
def okHandler : HandlerImpl :=
  HandlerImpl.mk (fun _ w _ =>
    Exec.mk { w := (w.add (Write.status 200)).add (Write.body "ok"), panic := none } [])

/-- A context-free handler that answers 200 with the body "old". -/
def oldHandler : HttpHandlerImpl :=
  HttpHandlerImpl.mk (fun w _ =>
    Exec.mk { w := (w.add (Write.status 200)).add (Write.body "old"), panic := none } [])

/-- A context-free function that writes a header and then panics. -/
def boomFunc : ResponseWriter → Request → Exec :=
  fun w _ =>
    Exec.mk { w := w.add (Write.header "X-Step" "1"),
              panic := some (PanicValue.value "boom") } []

/-- A context-aware handler that reports what it sees of its context: "nil" for a nil
context, "cancelled" when `Err()` is not nil, "live" otherwise. -/
def probeHandler : HandlerImpl :=
  HandlerImpl.mk (fun ctx w _ =>
    match ctx with
    | none => Exec.mk { w := w.add (Write.body "nil"), panic := none } []
    | some c =>
      if c.Err.isSome then
        Exec.mk { w := w.add (Write.body "cancelled"), panic := none } []
      else
        Exec.mk { w := w.add (Write.body "live"), panic := none } [])

/-- A server whose plaintext operation fails on an empty address and blocks otherwise,
and whose TLS operation fails when the certificate file is "missing.pem". -/
def sampleServer : http.Server :=
  { ListenAndServe := fun addr _ =>
      if addr = "" then ServeResult.returned (some "listen: missing address")
      else ServeResult.blocks
    ListenAndServeTLS := fun _ certFile _ _ =>
      if certFile = "missing.pem" then
        ServeResult.returned (some "open missing.pem: no such file or directory")
      else ServeResult.blocks }

/-! ## The sample values, run -/

theorem okHandler_served :
    (http.Handler.ServeHTTP (rootHandler (some okHandler)) emptySink getRoot).result
      = { w := { written := [Write.status 200, Write.body "ok"] }, panic := none } := by
  decide

theorem probeHandler_direct_cancelled :
    (Handler.ServeHTTP (some probeHandler) context.cancelled emptySink getRoot).result
      = { w := { written := [Write.body "cancelled"] }, panic := none } := by
  decide

theorem probeHandler_under_rootHandler :
    (http.Handler.ServeHTTP (rootHandler (some probeHandler)) emptySink getRoot).result
      = { w := { written := [Write.body "live"] }, panic := none } := by
  decide

theorem oldHandler_cancelled_and_background :
    (Handler.ServeHTTP (OldHandler (some oldHandler)) context.cancelled emptySink getRoot).result
      = { w := { written := [Write.status 200, Write.body "old"] }, panic := none }
    ∧ (Handler.ServeHTTP (OldHandler (some oldHandler)) context.Background emptySink
        getRoot).result
      = { w := { written := [Write.status 200, Write.body "old"] }, panic := none } := by
  decide

theorem boomFunc_through_both_bridges :
    (http.Handler.ServeHTTP
        (rootHandler (HandlerFunc.toHandler (OldHandleFunc (some boomFunc))))
        emptySink getRoot).result
      = { w := { written := [Write.header "X-Step" "1"] },
          panic := some (PanicValue.value "boom") } := by
  decide

theorem nil_func_adapter_panics :
    (Handler.ServeHTTP (HandlerFunc.toHandler none) context.Background emptySink
        getRoot).result
      = { w := emptySink, panic := some PanicValue.nilDereference } := by
  decide

theorem sampleServer_missing_certificate :
    (ListenAndServeTLS sampleServer ":8443" "missing.pem" "key.pem" (some okHandler)).result
      = ServeResult.returned (some "open missing.pem: no such file or directory") := by
  decide

theorem sampleServer_blocks :
    (ListenAndServe sampleServer ":8080" (some okHandler)).result = ServeResult.blocks := by
  decide

/-! ## Unfolding lemmas -/

theorem perform_result (c : Call) : (perform c).result = (Call.run c).result := rfl

theorem perform_calls (c : Call) : (perform c).calls = [c] := rfl

theorem rootHandler_nil : rootHandler none = none := rfl

theorem rootHandler_present (hv : HandlerImpl) :
    rootHandler (some hv)
      = some (HttpHandlerImpl.mk (fun w r =>
          perform (Call.ServeHTTP (some hv) context.Background w r))) := rfl

/-! ## The function adapter and the two legacy bridges -/

/-- C1: for every function `f` of the context-aware signature (nil included) and every
context, sink and request, the method `HandlerFunc(f).ServeHTTP(ctx, w, r)`, called
directly or through the interface `Handler`, leaves exactly the sink and panic that
the call `f(ctx, w, r)` leaves, and for a non-nil function `g` that is what `g` itself
yields. -/
theorem HandlerFunc_ServeHTTP_same_writes (f : HandlerFunc)
    (g : context.Context → ResponseWriter → Request → Exec) (ctx : context.Context)
    (w : ResponseWriter) (r : Request) :
    (HandlerFunc.ServeHTTP f ctx w r).result = (HandlerFunc.call f ctx w r).result
    ∧ (Handler.ServeHTTP (HandlerFunc.toHandler f) ctx w r).result
        = (HandlerFunc.call f ctx w r).result
    ∧ (HandlerFunc.ServeHTTP (some g) ctx w r).result = (g ctx w r).result :=
  ⟨rfl, rfl, rfl⟩

/-- C2: for every context-free handler `h` (nil included), sink, request and pair of
contexts, `OldHandler(h).ServeHTTP(ctx1, w, r)` and `OldHandler(h).ServeHTTP(ctx2, w, r)`
both leave exactly the sink and panic of `h.ServeHTTP(w, r)`, hence the same as each
other: the context supplied is ignored. -/
theorem OldHandler_ignores_context (h : http.Handler) (ctx1 ctx2 : context.Context)
    (w : ResponseWriter) (r : Request) :
    (Handler.ServeHTTP (OldHandler h) ctx1 w r).result = (http.Handler.ServeHTTP h w r).result
    ∧ (Handler.ServeHTTP (OldHandler h) ctx2 w r).result
        = (http.Handler.ServeHTTP h w r).result
    ∧ (Handler.ServeHTTP (OldHandler h) ctx1 w r).result
        = (Handler.ServeHTTP (OldHandler h) ctx2 w r).result :=
  ⟨rfl, rfl, rfl⟩

/-- C6: for every context-free function `f` (nil included), context, sink and request,
`OldHandleFunc(f).ServeHTTP(ctx, w, r)` and the call `OldHandleFunc(f)(ctx, w, r)` leave
exactly the sink and panic of `f(w, r)`, whatever the context: two contexts give the
same result, and the one call the returned function makes is `f(w, r)`. -/
theorem OldHandleFunc_same_writes (f : http.HandlerFunc) (ctx ctx2 : context.Context)
    (w : ResponseWriter) (r : Request) :
    (HandlerFunc.ServeHTTP (OldHandleFunc f) ctx w r).result
        = (http.HandlerFunc.call f w r).result
    ∧ (HandlerFunc.call (OldHandleFunc f) ctx w r).result
        = (http.HandlerFunc.call f w r).result
    ∧ (HandlerFunc.ServeHTTP (OldHandleFunc f) ctx w r).result
        = (HandlerFunc.ServeHTTP (OldHandleFunc f) ctx2 w r).result
    ∧ (HandlerFunc.call (OldHandleFunc f) ctx w r).calls = [Call.httpFunc f w r] :=
  ⟨rfl, rfl, rfl, rfl⟩

/-! ## The root adapter -/

/-- C3: for every present context-aware handler and every invocation of
`rootHandler(h)` on a sink and a request, the one call made is `h.ServeHTTP` with a
context that is the background context: it is not nil, its `Done` channel is not
closed, its `Err()` is nil, it has no deadline and its `Value` is nil for every key. -/
theorem rootHandler_passes_background (hv : HandlerImpl) (w : ResponseWriter)
    (r : Request) :
    ∃ (ctx : context.Context) (c : context.Impl),
      (http.Handler.ServeHTTP (rootHandler (some hv)) w r).calls
          = [Call.ServeHTTP (some hv) ctx w r]
      ∧ ctx = context.Background
      ∧ ctx = some c
      ∧ c.Done = false
      ∧ c.Err = none
      ∧ c.Deadline = none
      ∧ ∀ key : context.Key, c.Value key = none :=
  ⟨context.Background, _, rfl, rfl, rfl, rfl, rfl, rfl, fun _ => rfl⟩

/-- C4: `rootHandler` of the nil handler is the nil `http.Handler`, `rootHandler` of
any present handler is not nil, and so the result is nil if and only if the handler
is. -/
theorem rootHandler_nil_iff (h : Handler) (hv : HandlerImpl) :
    rootHandler none = none
    ∧ rootHandler (some hv) ≠ none
    ∧ (rootHandler h = none ↔ h = none) := by
  refine ⟨rfl, ?_, ?_⟩
  · simp [rootHandler, http.HandlerFunc.toHandler]
  · cases h <;> simp [rootHandler, http.HandlerFunc.toHandler]

/-- C5: for every present context-aware handler `h`, sink `w` and request `r`,
invoking `rootHandler(h)` on `(w, r)` makes exactly one call, `h.ServeHTTP` with the
background context and the same `w` and `r`, and leaves exactly the sink and panic
that this call leaves: the handler is handed the sink as the adapter received it and
the adapter adds no write of its own. -/
theorem rootHandler_delegates_once (hv : HandlerImpl) (w : ResponseWriter) (r : Request) :
    (http.Handler.ServeHTTP (rootHandler (some hv)) w r).calls
        = [Call.ServeHTTP (some hv) context.Background w r]
    ∧ (http.Handler.ServeHTTP (rootHandler (some hv)) w r).result
        = (hv.ServeHTTP context.Background w r).result
    ∧ http.Handler.ServeHTTP (rootHandler (some hv)) w r
        = Exec.mk (Handler.ServeHTTP (some hv) context.Background w r).result
            [Call.ServeHTTP (some hv) context.Background w r] :=
  ⟨rfl, rfl, rfl⟩

/-! ## Serving -/

/-- C7: for every server, address and handler (present or nil),
`ListenAndServe(addr, handler)` returns exactly what `http.ListenAndServe` returns on
`addr` and `rootHandler(handler)`, and that call is the only call it makes. -/
theorem ListenAndServe_propagates (srv : http.Server) (addr : String) (handler : Handler) :
    (ListenAndServe srv addr handler).result
        = srv.ListenAndServe addr (rootHandler handler)
    ∧ (ListenAndServe srv addr handler).calls
        = [http.ServerCall.ListenAndServe addr (rootHandler handler)] :=
  ⟨rfl, rfl⟩

/-- C8: for every server, address, certificate file, key file and handler,
`ListenAndServeTLS(addr, certFile, keyFile, handler)` makes exactly one call,
`http.ListenAndServeTLS` with the same three strings and `rootHandler(handler)`, and
returns exactly what that call returns. -/
theorem ListenAndServeTLS_passes_through (srv : http.Server) (addr certFile keyFile : String)
    (handler : Handler) :
    (ListenAndServeTLS srv addr certFile keyFile handler).calls
        = [http.ServerCall.ListenAndServeTLS addr certFile keyFile (rootHandler handler)]
    ∧ (ListenAndServeTLS srv addr certFile keyFile handler).result
        = srv.ListenAndServeTLS addr certFile keyFile (rootHandler handler) :=
  ⟨rfl, rfl⟩

/-! ## Panics and the round trip -/

/-- C9: each adapter ends with the panic of the handler it wraps: the same panic value
when the wrapped handler panics (`some v`), none when it returns (`none`).  This holds
for `HandlerFunc(f).ServeHTTP`, `OldHandler(h).ServeHTTP`, `OldHandleFunc(f).ServeHTTP`
and the handler returned by `rootHandler(h)`, whose wrapped call is
`h.ServeHTTP(context.Background(), w, r)`. -/
theorem adapters_propagate_panics (f : HandlerFunc) (h : http.Handler)
    (f2 : http.HandlerFunc) (hh : Handler) (ctx : context.Context) (w : ResponseWriter)
    (r : Request) :
    (HandlerFunc.ServeHTTP f ctx w r).result.panic = (HandlerFunc.call f ctx w r).result.panic
    ∧ (Handler.ServeHTTP (OldHandler h) ctx w r).result.panic
        = (http.Handler.ServeHTTP h w r).result.panic
    ∧ (HandlerFunc.ServeHTTP (OldHandleFunc f2) ctx w r).result.panic
        = (http.HandlerFunc.call f2 w r).result.panic
    ∧ (http.Handler.ServeHTTP (rootHandler hh) w r).result.panic
        = (Handler.ServeHTTP hh context.Background w r).result.panic := by
  refine ⟨rfl, rfl, rfl, ?_⟩
  cases hh <;> rfl

/-- C10: for every context-free handler `h` (nil included) `rootHandler(OldHandler(h))`
is not nil and its invocation on `(w, r)` leaves exactly the sink and panic of
`h.ServeHTTP(w, r)`; for every context-free function `f` (nil included)
`rootHandler(OldHandleFunc(f))` is not nil and its invocation leaves exactly the sink
and panic of `f(w, r)`. -/
theorem rootHandler_of_old_round_trip (h : http.Handler) (f : http.HandlerFunc)
    (w : ResponseWriter) (r : Request) :
    rootHandler (OldHandler h) ≠ none
    ∧ (http.Handler.ServeHTTP (rootHandler (OldHandler h)) w r).result
        = (http.Handler.ServeHTTP h w r).result
    ∧ rootHandler (HandlerFunc.toHandler (OldHandleFunc f)) ≠ none
    ∧ (http.Handler.ServeHTTP (rootHandler (HandlerFunc.toHandler (OldHandleFunc f))) w r).result
        = (http.HandlerFunc.call f w r).result := by
  refine ⟨?_, rfl, ?_, rfl⟩
  · simp [rootHandler, OldHandler, HandlerFunc.toHandler, http.HandlerFunc.toHandler]
  · simp [rootHandler, HandlerFunc.toHandler, http.HandlerFunc.toHandler]

end httpctx
